import Mathlib

/-!
Verification of the cell-widget geometry resolver of the gongwen repository
(packages/react/src/components/SheetOverlay/CellWidgets.tsx).

The component filters the supplied widget descriptors by sheet id, and for
each remaining widget computes an absolute overlay rectangle from the active
sheet's merge map and the visible row/column axis tables, together with an
event-containment mode.

The axis-lookup helpers `rowLocationByIndex` and `colLocationByIndex` are
imported from the package `@fortune-sheet/core`, whose source is not among
the provided files; they are modelled from the spec (see their doc comments).
Everything else is translated directly from CellWidgets.tsx.
-/

namespace Gongwen

/-- A merge region block, an entry of `sheet.config.merge`: anchor cell
`(r, c)`, row span `rs`, column span `cs`.  The region covers the cells
`[r, r+rs) x [c, c+cs)`. -/
structure MergeBlock where
  r : Int
  c : Int
  rs : Int
  cs : Int
  deriving Repr, DecidableEq

/-- The merge map of a sheet.  JavaScript objects enumerate their keys in a
fixed order (`Object.keys`), which the association-list order models. -/
abbrev MergeMap := List (String × MergeBlock)

/-- The part of a sheet's `config` the component reads. -/
structure SheetConfig where
  merge : Option MergeMap
  deriving Repr, DecidableEq

/-- The part of a sheet record (an entry of `context.luckysheetfile`) the
component reads.  `id` is optional in the fortune-sheet `Sheet` type. -/
structure Sheet where
  id : Option String
  config : Option SheetConfig
  deriving Repr, DecidableEq

/-- A widget descriptor (`CellWidget`): anchor cell, target sheet, optional
explicit size and offsets, and the event-passthrough flag.  In the source an
absent `passthroughEvents` is falsy, which `false` models; an absent or
`null` `sheetId` is modelled by `none` and the empty string stays a distinct
(also falsy) value `some ""`. -/
structure CellWidget where
  id : String
  sheetId : Option String
  r : Int
  c : Int
  width : Option Int
  height : Option Int
  offsetX : Option Int
  offsetY : Option Int
  passthroughEvents : Bool
  deriving Repr, DecidableEq

/-- Modelled from the spec: a visible axis table is an ordered sequence
mapping a logical index to a `[startOffset, endOffset)` pixel interval; only
indices currently scrolled into view are present.  An entry is
`(index, startOffset, endOffset)`. -/
abbrev AxisTable := List (Int × Int × Int)

/-- Modelled from the spec: look an index up in a visible axis table,
yielding its `[startOffset, endOffset)` interval, or `none` when the index
is absent (scrolled out of view). -/
def axisLookup (t : AxisTable) (i : Int) : Option (Int × Int) :=
  (t.find? (fun e => e.1 == i)).map (fun e => e.2)

/-- Modelled from the spec: `rowLocationByIndex` lives in
`@fortune-sheet/core`, which is not among the provided source files.  Per the
spec, it looks the row index up in the visible row axis table and yields the
row's `[startOffset, endOffset)` pixel interval; an absent index means the
row is not visible. -/
def rowLocationByIndex (i : Int) (visibledatarow : AxisTable) : Option (Int × Int) :=
  axisLookup visibledatarow i

/-- Modelled from the spec: `colLocationByIndex` lives in
`@fortune-sheet/core`; symmetric to `rowLocationByIndex` on the visible
column axis table. -/
def colLocationByIndex (i : Int) (visibledatacolumn : AxisTable) : Option (Int × Int) :=
  axisLookup visibledatacolumn i

/-- The part of the workbook context the component reads. -/
structure Context where
  currentSheetId : String
  luckysheetfile : List Sheet
  visibledatarow : AxisTable
  visibledatacolumn : AxisTable
  deriving Repr, DecidableEq

/-- The event classes the component attaches `stopEvent` to
(onClick, onMouseDown, onDoubleClick, onKeyDown, onContextMenu). -/
inductive EventKind where
  | click
  | mousedown
  | doubleclick
  | keydown
  | contextmenu
  deriving Repr, DecidableEq

/-- All five contained event classes, in the order the handlers appear on
the widget element. -/
def containedEvents : List EventKind :=
  [.click, .mousedown, .doubleclick, .keydown, .contextmenu]

/-- A resolved placement: the style rectangle of the widget element, whether
`pointerEvents: "none"` is set, and which event classes have the
propagation-stopping handler attached. -/
structure Placement where
  left : Int
  top : Int
  width : Int
  height : Int
  pointerEventsNone : Bool
  stoppedEvents : List EventKind
  deriving Repr, DecidableEq

/-- The predicate of the merge-map search callback: whether the block
contains the cell `(r, c)`
(`widget.r >= block.r && widget.r < block.r + block.rs && ...`). -/
def blockContains (block : MergeBlock) (r c : Int) : Bool :=
  decide (block.r ≤ r) && decide (r < block.r + block.rs) &&
    decide (block.c ≤ c) && decide (c < block.c + block.cs)

/-- `Object.keys(merge).find(...)`: the first merge entry, in key
enumeration order, whose block contains `(r, c)`.  (The source also guards
`if (!block) return false`, vacuous here since every key of an association
list has a value.) -/
def findMergeEntry (merge : MergeMap) (r c : Int) : Option (String × MergeBlock) :=
  merge.find? (fun kb => blockContains kb.2 r c)

/-- `context.luckysheetfile.find((item) => item.id === context.currentSheetId)`. -/
def sheetOfContext (ctx : Context) : Option Sheet :=
  ctx.luckysheetfile.find? (fun item => item.id == some ctx.currentSheetId)

/-- `sheet?.config?.merge`. -/
def mergeOfContext (ctx : Context) : Option MergeMap :=
  (sheetOfContext ctx).bind (fun s => s.config.bind (fun cfg => cfg.merge))

/-- The merge entry found for a widget's anchor cell:
`Object.keys(merge || {}).find(...)` (no key is enumerated when `merge` is
absent). -/
def mergeEntryOfWidget (ctx : Context) (w : CellWidget) : Option (String × MergeBlock) :=
  match mergeOfContext ctx with
  | none => none
  | some m => findMergeEntry m w.r w.c

/-- The effective rectangle's corner indices: `topRow`, `leftCol`,
`bottomRow`, `rightCol` of the source. -/
structure EffRect where
  topRow : Int
  leftCol : Int
  bottomRow : Int
  rightCol : Int
  deriving Repr, DecidableEq

/-- `topRow` / `leftCol` / `bottomRow` / `rightCol`: the merge block's
bounding box when a merge entry was found, otherwise the single anchor cell.
The source condition is `mergeKey && merge ? ... : widget.r`: a found key
that is the empty string is falsy in JavaScript, so it falls back to the
single cell exactly like no match. -/
def effectiveRect (ctx : Context) (w : CellWidget) : EffRect :=
  match mergeEntryOfWidget ctx w with
  | some kb =>
      if kb.1 == "" then
        { topRow := w.r, leftCol := w.c, bottomRow := w.r, rightCol := w.c }
      else
        { topRow := kb.2.r, leftCol := kb.2.c,
          bottomRow := kb.2.r + kb.2.rs - 1, rightCol := kb.2.c + kb.2.cs - 1 }
  | none => { topRow := w.r, leftCol := w.c, bottomRow := w.r, rightCol := w.c }

/-- Resolve one widget against the context.  The source reads
`const [top] = rowLocationByIndex(topRow, ...)`,
`const [, bottom] = rowLocationByIndex(bottomRow, ...)` and symmetrically
for columns, then builds the element's style
`{left: left + (widget.offsetX ?? 0), top: top + (widget.offsetY ?? 0),
width: widget.width ?? right - left - 1,
height: widget.height ?? bottom - top - 1, pointerEvents}` with the
`stopEvent` handlers attached unless `passthroughEvents`.  A failed axis
lookup (an index absent from the spec-modelled visible table) yields `none`
here; note, however, that the source component itself has no omission
branch — its map callback returns the widget's div unconditionally — so
`none` only records that the axis lookup failed (the geometry the real code
would then show, an undefined/NaN destructure of the helper's result, is not
representable); it is not an omission path implemented by the source. -/
def resolveWidget (ctx : Context) (w : CellWidget) : Option Placement :=
  match rowLocationByIndex (effectiveRect ctx w).topRow ctx.visibledatarow,
        rowLocationByIndex (effectiveRect ctx w).bottomRow ctx.visibledatarow,
        colLocationByIndex (effectiveRect ctx w).leftCol ctx.visibledatacolumn,
        colLocationByIndex (effectiveRect ctx w).rightCol ctx.visibledatacolumn with
  | some tb, some bb, some lr, some rr =>
      some
        { left := lr.1 + w.offsetX.getD 0
          top := tb.1 + w.offsetY.getD 0
          width := w.width.getD (rr.2 - lr.1 - 1)
          height := w.height.getD (bb.2 - tb.1 - 1)
          pointerEventsNone := w.passthroughEvents
          stoppedEvents := if w.passthroughEvents then [] else containedEvents }
  | _, _, _, _ => none

/-- The sheet filter of the component:
`!widget.sheetId || widget.sheetId === context.currentSheetId`
(an absent, null or empty `sheetId` is falsy). -/
def widgetSheetFilter (currentSheetId : String) (w : CellWidget) : Bool :=
  match w.sheetId with
  | none => true
  | some s => s == "" || s == currentSheetId

/-- `(settings.cellWidgets || []).filter(...)`. -/
def filteredWidgets (ctx : Context) (cellWidgets : Option (List CellWidget)) :
    List CellWidget :=
  (cellWidgets.getD []).filter (widgetSheetFilter ctx.currentSheetId)

/-- The component's output: `null` (`none`) when the filtered widget list is
empty, otherwise the container with each filtered widget's key and
resolution result.  The source's map callback renders a div for every
filtered widget unconditionally, so the list always holds one entry per
filtered widget, whether or not its axis lookups succeeded. -/
def CellWidgets (ctx : Context) (cellWidgets : Option (List CellWidget)) :
    Option (List (String × Option Placement)) :=
  if (filteredWidgets ctx cellWidgets).length = 0 then none
  else
    some ((filteredWidgets ctx cellWidgets).map (fun w => (w.id, resolveWidget ctx w)))

/-- The visible row axis table of the spec's worked example:
row 0 has offsets `[0, 20)`, row 1 has `[20, 40)`. -/
def exRows : AxisTable := [(0, 0, 20), (1, 20, 40)]

/-- The visible column axis table of the spec's worked example:
column 0 has offsets `[0, 50)`, column 1 has `[50, 100)`. -/
def exCols : AxisTable := [(0, 0, 50), (1, 50, 100)]

/-- A sheet with no merge configuration. -/
def exSheetPlain : Sheet := { id := some "sheet-1", config := none }

/-- A context whose active sheet has no merges, with the example axis tables. -/
def exCtx1 : Context :=
  { currentSheetId := "sheet-1", luckysheetfile := [exSheetPlain],
    visibledatarow := exRows, visibledatacolumn := exCols }

/-- A widget anchored at `(0, 0)` with no overrides. -/
def exW1 : CellWidget :=
  { id := "w1", sheetId := some "sheet-1", r := 0, c := 0,
    width := none, height := none, offsetX := none, offsetY := none,
    passthroughEvents := false }

/-- The spec's example merge map: a 2x2 region anchored at `(0, 0)`. -/
def exMerge : MergeMap := [("0_0", { r := 0, c := 0, rs := 2, cs := 2 })]

/-- A sheet carrying the example merge map. -/
def exSheetMerged : Sheet :=
  { id := some "sheet-1", config := some { merge := some exMerge } }

/-- The example context with the 2x2 merge. -/
def exCtx2 : Context := { exCtx1 with luckysheetfile := [exSheetMerged] }

/-- A widget anchored at the inner cell `(1, 1)` of the 2x2 merge. -/
def exW2 : CellWidget := { exW1 with id := "w2", r := 1, c := 1 }

/-- A widget with explicit width 7 and height 5, contradicting the cell's
49x19 pixel span. -/
def exW4 : CellWidget := { exW1 with id := "w4", width := some 7, height := some 5 }

/-- The placement `exW4` resolves to: the explicit size wins. -/
def exP4 : Placement :=
  { left := 0, top := 0, width := 7, height := 5,
    pointerEventsNone := false, stoppedEvents := containedEvents }

/-- A widget with `passthroughEvents: true`. -/
def exW6 : CellWidget := { exW1 with id := "w6", passthroughEvents := true }

/-- The placement `exW6` resolves to: non-interactive, no handlers. -/
def exP6 : Placement :=
  { left := 0, top := 0, width := 49, height := 19,
    pointerEventsNone := true, stoppedEvents := [] }

/-- A context whose `luckysheetfile` has no sheet at all, so the current
sheet id matches no sheet data. -/
def exCtx7 : Context := { exCtx1 with luckysheetfile := [] }

/-- A 2x2 merge block anchored at `(0, 0)`. -/
def exBlockA : MergeBlock := { r := 0, c := 0, rs := 2, cs := 2 }

/-- A 2x2 merge block anchored at `(1, 1)`, overlapping `exBlockA`. -/
def exBlockB : MergeBlock := { r := 1, c := 1, rs := 2, cs := 2 }

/-- A 1x1 merge block far away from the others. -/
def exBlockZ : MergeBlock := { r := 5, c := 5, rs := 1, cs := 1 }

/-- A malformed merge map whose regions `a` and `b` overlap: both contain
the cell `(1, 1)`. -/
def exMerge8 : MergeMap := [("z", exBlockZ), ("a", exBlockA), ("b", exBlockB)]

/-- A sheet carrying the malformed overlapping merge map. -/
def exSheet8 : Sheet :=
  { id := some "sheet-1", config := some { merge := some exMerge8 } }

/-- The example context with the overlapping merge map. -/
def exCtx8 : Context := { exCtx1 with luckysheetfile := [exSheet8] }

/-- A widget anchored at `(1, 1)`, inside both overlapping regions. -/
def exW8 : CellWidget := { exW1 with id := "w8", r := 1, c := 1 }

/-- `List.find?` on a split list: when every element of the prefix fails the
predicate and `a` satisfies it, the search returns `a`. -/
theorem find?_first {α : Type} (p : α → Bool) (l1 l2 : List α) (a : α)
    (hp : p a = true) (h1 : ∀ x ∈ l1, p x = false) :
    (l1 ++ a :: l2).find? p = some a := by
  induction l1 with
  | nil =>
      rw [List.nil_append]
      exact List.find?_cons_of_pos _ hp
  | cons x xs ih =>
      rw [List.cons_append, List.find?_cons_of_neg _ (by simp [h1 x (by simp)])]
      exact ih (fun y hy => h1 y (by simp [hy]))

/-- C1: for a widget anchored at an unmerged cell whose row has visible
offsets `[rt, rb)` and whose column has visible offsets `[cl, cr)`, with no
explicit size and no offsets, the resolved placement is
`{left: cl, top: rt, width: cr-cl-1, height: rb-rt-1}`. -/
theorem resolve_unmerged_default (ctx : Context) (w : CellWidget) (rt rb cl cr : Int)
    (hm : mergeEntryOfWidget ctx w = none)
    (hw : w.width = none) (hh : w.height = none)
    (hx : w.offsetX = none) (hy : w.offsetY = none)
    (hr : rowLocationByIndex w.r ctx.visibledatarow = some (rt, rb))
    (hc : colLocationByIndex w.c ctx.visibledatacolumn = some (cl, cr)) :
    resolveWidget ctx w =
      some { left := cl, top := rt, width := cr - cl - 1, height := rb - rt - 1,
             pointerEventsNone := w.passthroughEvents,
             stoppedEvents := if w.passthroughEvents then [] else containedEvents } := by
  have hrect : effectiveRect ctx w =
      { topRow := w.r, leftCol := w.c, bottomRow := w.r, rightCol := w.c } := by
    unfold effectiveRect
    rw [hm]
  unfold resolveWidget
  rw [hrect]
  simp [hr, hc, hw, hh, hx, hy]

/-- C1 witness: the spec's example — row 0 with offsets `[0, 20)`, column 0
with offsets `[0, 50)`, widget anchored at `(0, 0)`, no merge, no
overrides — resolves to `{left: 0, top: 0, width: 49, height: 19}`. -/
theorem resolve_unmerged_default_witness :
    resolveWidget exCtx1 exW1 =
      some { left := 0, top := 0, width := 49, height := 19,
             pointerEventsNone := false, stoppedEvents := containedEvents } := by
  have h := resolve_unmerged_default exCtx1 exW1 0 20 0 50
    (by decide) rfl rfl rfl rfl (by decide) (by decide)
  rw [h]
  decide

/-- C2: for a widget whose anchor cell lies anywhere inside a merge region
(the entry the merge-map search finds, with a truthy key), the resolved
placement is computed from the merge region's full bounding box — top row
`b.r`, bottom row `b.r + b.rs - 1`, left column `b.c`, right column
`b.c + b.cs - 1` — regardless of which inner cell is the anchor. -/
theorem resolve_merge_bounding_box (ctx : Context) (w : CellWidget)
    (k : String) (b : MergeBlock) (t1 t2 b1 b2 l1 l2 r1 r2 : Int)
    (hm : mergeEntryOfWidget ctx w = some (k, b))
    (hk : k ≠ "")
    (h1 : rowLocationByIndex b.r ctx.visibledatarow = some (t1, t2))
    (h2 : rowLocationByIndex (b.r + b.rs - 1) ctx.visibledatarow = some (b1, b2))
    (h3 : colLocationByIndex b.c ctx.visibledatacolumn = some (l1, l2))
    (h4 : colLocationByIndex (b.c + b.cs - 1) ctx.visibledatacolumn = some (r1, r2)) :
    resolveWidget ctx w =
      some { left := l1 + w.offsetX.getD 0, top := t1 + w.offsetY.getD 0,
             width := w.width.getD (r2 - l1 - 1),
             height := w.height.getD (b2 - t1 - 1),
             pointerEventsNone := w.passthroughEvents,
             stoppedEvents := if w.passthroughEvents then [] else containedEvents } := by
  have hrect : effectiveRect ctx w =
      { topRow := b.r, leftCol := b.c,
        bottomRow := b.r + b.rs - 1, rightCol := b.c + b.cs - 1 } := by
    unfold effectiveRect
    rw [hm]
    simp [hk]
  unfold resolveWidget
  rw [hrect]
  simp [h1, h2, h3, h4]

/-- C2 witness: the spec's example — a 2x2 merge anchored at `(0, 0)` with
the example axis tables; a widget anchored at the inner cell `(1, 1)`
resolves to `{left: 0, top: 0, width: 99, height: 39}`. -/
theorem resolve_merge_bounding_box_witness :
    resolveWidget exCtx2 exW2 =
      some { left := 0, top := 0, width := 99, height := 39,
             pointerEventsNone := false, stoppedEvents := containedEvents } := by
  have h := resolve_merge_bounding_box exCtx2 exW2 "0_0"
    { r := 0, c := 0, rs := 2, cs := 2 } 0 20 20 40 0 50 50 100
    (by decide) (by decide) (by decide) (by decide) (by decide) (by decide)
  rw [h]
  decide

/-- A widget anchored at `(5, 0)`: row 5 is absent from the visible row
axis table of `exCtx1`, so per the spec it should be not visible. -/
def exW3 : CellWidget := { exW1 with id := "w3", r := 5 }

/-- C3: at the failing input — the widget's row 5 scrolled out of the
visible row axis table — the component's output still carries an entry for
the widget.  The source's map callback (CellWidgets.tsx lines 52-95)
returns the widget's div unconditionally, with no omission branch, so an
out-of-view widget is never excluded from the rendered output; the spec's
demanded degrade-to-omission is not implemented by the code. -/
theorem out_of_view_widget_still_rendered :
    (CellWidgets exCtx1 (some [exW3])).map (List.map Prod.fst) = some ["w3"] := by
  decide

/-- C4: an explicit `width` (respectively `height`) on the descriptor
overrides the computed default entirely: whenever the widget resolves to a
placement, that placement's width (height) equals the explicit value. -/
theorem explicit_size_overrides (ctx : Context) (w : CellWidget) (p : Placement)
    (hp : resolveWidget ctx w = some p) :
    (∀ wv, w.width = some wv → p.width = wv) ∧
    (∀ hv, w.height = some hv → p.height = hv) := by
  unfold resolveWidget at hp
  split at hp
  · injection hp with h
    subst h
    constructor
    · intro wv hwv
      simp [hwv]
    · intro hv hhv
      simp [hhv]
  · cases hp

/-- C4 witness: a widget with explicit width 7 and height 5 on the 49x19
cell resolves to a placement of exactly that size. -/
theorem explicit_size_overrides_witness : exP4.width = 7 ∧ exP4.height = 5 := by
  have h := explicit_size_overrides exCtx1 exW4 exP4 (by decide)
  exact ⟨h.1 7 rfl, h.2 5 rfl⟩

/-- C5: `offsetX`/`offsetY` (defaulting to 0 when absent) are added only to
the resolved `left`/`top`; the resolved placement is the placement of the
same widget with no offsets, translated — width and height unchanged. -/
theorem offset_translates_position_only (ctx : Context) (w : CellWidget) :
    resolveWidget ctx w =
      (resolveWidget ctx { w with offsetX := none, offsetY := none }).map
        (fun p =>
          { p with
            left := p.left + w.offsetX.getD 0
            top := p.top + w.offsetY.getD 0 }) := by
  have hrect : effectiveRect ctx { w with offsetX := none, offsetY := none } =
      effectiveRect ctx w := rfl
  unfold resolveWidget
  rw [hrect]
  cases h1 : rowLocationByIndex (effectiveRect ctx w).topRow ctx.visibledatarow <;>
    cases h2 : rowLocationByIndex (effectiveRect ctx w).bottomRow ctx.visibledatarow <;>
      cases h3 : colLocationByIndex (effectiveRect ctx w).leftCol ctx.visibledatacolumn <;>
        cases h4 : colLocationByIndex (effectiveRect ctx w).rightCol ctx.visibledatacolumn <;>
          simp

/-- C6: when `passthroughEvents` is true the resolved placement disables
pointer events and attaches no propagation-stopping handler; when it is
false (or absent, which is falsy) the placement keeps pointer events and
stops click, mousedown, doubleclick, keydown and contextmenu from
propagating to the grid. -/
theorem passthrough_event_containment (ctx : Context) (w : CellWidget) (p : Placement)
    (hp : resolveWidget ctx w = some p) :
    (w.passthroughEvents = true →
      p.pointerEventsNone = true ∧ p.stoppedEvents = []) ∧
    (w.passthroughEvents = false →
      p.pointerEventsNone = false ∧ p.stoppedEvents = containedEvents) := by
  unfold resolveWidget at hp
  split at hp
  · injection hp with h
    subst h
    constructor <;> intro hpe <;> simp [hpe]
  · cases hp

/-- C6 witness: a widget with `passthroughEvents: true` resolves to a
non-interactive placement with no handlers attached. -/
theorem passthrough_event_containment_witness :
    exP6.pointerEventsNone = true ∧ exP6.stoppedEvents = [] := by
  have h := passthrough_event_containment exCtx1 exW6 exP6 (by decide)
  exact h.1 rfl

/-- C7 counterexample: with a snapshot whose `luckysheetfile` holds no sheet
for the current sheet id, the widget anchored at `(0, 0)` is NOT treated as
not-visible — it still resolves to a placement, refuting the claim that a
missing sheet makes the affected widget omitted. -/
theorem missing_sheet_counterexample :
    sheetOfContext exCtx7 = none ∧ resolveWidget exCtx7 exW1 ≠ none := by
  constructor
  · rfl
  · decide

/-- C7 amended: when the referenced sheet id has no sheet data, the merge
lookup is skipped and the widget is resolved as a plain unmerged cell from
its anchor (so it is placed whenever its own row and column are visible);
resolution of the whole batch still proceeds — the component's output, when
non-null, lists every filtered widget's resolution. -/
theorem missing_sheet_resolves_single_cell (ctx : Context) (w : CellWidget)
    (t1 t2 l1 l2 : Int)
    (hs : sheetOfContext ctx = none)
    (hr : rowLocationByIndex w.r ctx.visibledatarow = some (t1, t2))
    (hc : colLocationByIndex w.c ctx.visibledatacolumn = some (l1, l2)) :
    resolveWidget ctx w =
      some { left := l1 + w.offsetX.getD 0, top := t1 + w.offsetY.getD 0,
             width := w.width.getD (l2 - l1 - 1),
             height := w.height.getD (t2 - t1 - 1),
             pointerEventsNone := w.passthroughEvents,
             stoppedEvents := if w.passthroughEvents then [] else containedEvents } ∧
    ∀ cw : Option (List CellWidget),
      CellWidgets ctx cw = none ∨
        CellWidgets ctx cw =
          some ((filteredWidgets ctx cw).map (fun x => (x.id, resolveWidget ctx x))) := by
  have hm : mergeEntryOfWidget ctx w = none := by
    unfold mergeEntryOfWidget mergeOfContext
    rw [hs]
    rfl
  have hrect : effectiveRect ctx w =
      { topRow := w.r, leftCol := w.c, bottomRow := w.r, rightCol := w.c } := by
    unfold effectiveRect
    rw [hm]
  constructor
  · unfold resolveWidget
    rw [hrect]
    simp [hr, hc]
  · intro cw
    unfold CellWidgets
    split
    · exact Or.inl rfl
    · exact Or.inr rfl

/-- C7 amended witness: in the sheetless context the `(0, 0)` widget is
placed from its single anchor cell with the default geometry. -/
theorem missing_sheet_resolves_single_cell_witness :
    resolveWidget exCtx7 exW1 =
      some { left := 0, top := 0, width := 49, height := 19,
             pointerEventsNone := false, stoppedEvents := containedEvents } := by
  have h := missing_sheet_resolves_single_cell exCtx7 exW1 0 20 0 50
    rfl (by decide) (by decide)
  rw [h.1]
  decide

/-- C8: for an anchor contained in several (malformed, overlapping) merge
regions, the resolver does not fail: the merge entry used is the first
containing entry in the merge map's key enumeration order, and the effective
rectangle is that region's bounding box — so the result is a deterministic
function of the snapshot. -/
theorem overlapping_merge_first_match (ctx : Context) (w : CellWidget)
    (sheet : Sheet) (cfg : SheetConfig) (m1 m2 : MergeMap) (k : String) (b : MergeBlock)
    (hs : sheetOfContext ctx = some sheet)
    (hcfg : sheet.config = some cfg)
    (hm : cfg.merge = some (m1 ++ (k, b) :: m2))
    (hk : k ≠ "")
    (hb : blockContains b w.r w.c = true)
    (h1 : ∀ kb ∈ m1, blockContains kb.2 w.r w.c = false) :
    mergeEntryOfWidget ctx w = some (k, b) ∧
    effectiveRect ctx w =
      { topRow := b.r, leftCol := b.c,
        bottomRow := b.r + b.rs - 1, rightCol := b.c + b.cs - 1 } := by
  have hent : mergeEntryOfWidget ctx w = some (k, b) := by
    unfold mergeEntryOfWidget mergeOfContext
    rw [hs, Option.some_bind, hcfg, Option.some_bind, hm]
    exact find?_first _ m1 m2 (k, b) hb h1
  refine ⟨hent, ?_⟩
  unfold effectiveRect
  rw [hent]
  simp [hk]

/-- C8 witness: in the malformed map `exMerge8`, regions `a` and `b` both
contain the anchor `(1, 1)`; the resolver deterministically picks `a`, the
first containing entry in enumeration order. -/
theorem overlapping_merge_first_match_witness :
    mergeEntryOfWidget exCtx8 exW8 = some ("a", exBlockA) := by
  have h := overlapping_merge_first_match exCtx8 exW8 exSheet8
    { merge := some exMerge8 } [("z", exBlockZ)] [("b", exBlockB)] "a" exBlockA
    (by decide) rfl rfl (by decide) (by decide) (by decide)
  exact h.1

/-- C9: a widget passes the sheet filter exactly when it is in the supplied
list and its `sheetId` is absent, empty, or equal to the current sheet id —
so a widget with no (or empty) sheet id is resolved on whichever sheet is
active, while a widget with a non-empty sheet id is kept only on that
sheet. -/
theorem sheet_filter_membership (ctx : Context) (ws : List CellWidget) (w : CellWidget) :
    w ∈ filteredWidgets ctx (some ws) ↔
      w ∈ ws ∧ (w.sheetId = none ∨ w.sheetId = some "" ∨
        w.sheetId = some ctx.currentSheetId) := by
  unfold filteredWidgets
  cases hs : w.sheetId with
  | none => simp [List.mem_filter, widgetSheetFilter, hs]
  | some s => simp [List.mem_filter, widgetSheetFilter, hs]

/-- C10: the component renders nothing at all (returns `null`) exactly when
the filtered widget list is empty — no descriptors supplied, or none
matching the active sheet. -/
theorem empty_widgets_renders_null (ctx : Context) (cw : Option (List CellWidget)) :
    CellWidgets ctx cw = none ↔ filteredWidgets ctx cw = [] := by
  unfold CellWidgets
  split
  · next h => simp [List.length_eq_zero.mp h]
  · next h =>
      simp only [reduceCtorEq, false_iff]
      intro hc
      exact h (by simp [hc])

end Gongwen
